import Mathlib

set_option maxRecDepth 8192

/-!
Shallow embedding of the GNOME GitHub PR status extension core: the
GitHub API client (`github.js`: `normalizePR`, `categorizePRs`,
`GitHubClient._request`, `fetchPullRequests`, `fetchNotifications`) and
the refresh cycle of the panel button (`extension.js`: `_refresh`,
`_updateBadge`). Network I/O is modelled at the level of one delivered
HTTP response per request; nullable JSON fields are `Option`s and JS
truthiness of nullable strings is made explicit.
-/

/-- One review node from the GraphQL response, `{ state, author { login } }`.
The nullable author object is collapsed to its `login` field, matching the
only use `r.author?.login` in the source; `none` models a null or absent
author. -/
structure RawReview where
  author : Option String
  state : String
  deriving DecidableEq

/-- One status-check context node. The source distinguishes the two GraphQL
shapes by property presence (`'conclusion' in ctx`): CheckRun nodes carry
`{name, status, conclusion, detailsUrl}` and StatusContext nodes carry
`{context, state, targetUrl}`. Nullable fields are `Option`s. -/
inductive RawContext where
  | checkRun (name : String) (status : String) (conclusion : Option String)
      (detailsUrl : Option String)
  | statusContext (context : String) (state : String) (targetUrl : Option String)
  deriving DecidableEq

/-- The `contexts(first: 30)` connection object of a rollup, with its
nullable `nodes` list. -/
structure ContextsConn where
  nodes : Option (List RawContext)
  deriving DecidableEq

/-- A `statusCheckRollup` object: aggregate `state` plus the contexts
connection. -/
structure Rollup where
  state : String
  contexts : Option ContextsConn
  deriving DecidableEq

/-- A commit object, carrying its nullable `statusCheckRollup`. -/
structure Commit where
  statusCheckRollup : Option Rollup
  deriving DecidableEq

/-- One node of the `commits(last: 1)` connection; its `commit` field may
be null. -/
structure CommitNode where
  commit : Option Commit
  deriving DecidableEq

/-- The `commits(last: 1)` connection object with its nullable `nodes`
list. -/
structure CommitsConn where
  nodes : Option (List CommitNode)
  deriving DecidableEq

/-- The `reviews(last: 10)` connection object with its nullable `nodes`
list. -/
structure ReviewsConn where
  nodes : Option (List RawReview)
  deriving DecidableEq

/-- A raw PR node of the GraphQL response. `repository { name, owner
{ login } }` is flattened to the two strings the source reads. -/
structure PRNode where
  number : Nat
  title : String
  url : String
  isDraft : Bool
  updatedAt : String
  repoOwner : String
  repoName : String
  reviewDecision : Option String
  reviews : Option ReviewsConn
  commits : Option CommitsConn
  deriving DecidableEq

/-- A normalized check entry `{name, status, url}`. -/
structure Check where
  name : String
  status : String
  url : Option String
  deriving DecidableEq

/-- A normalized PR record as returned by `normalizePR`. -/
structure PR where
  number : Nat
  title : String
  url : String
  isDraft : Bool
  updatedAt : String
  repo : String
  repoName : String
  reviewDecision : Option String
  reviewers : List (String × String)
  ciStatus : String
  checks : List Check
  deriving DecidableEq

/-- JS truthiness of a nullable string: `null`, `undefined` and the empty
string are falsy. -/
def jsTruthy : Option String → Bool
  | none => false
  | some s => s != ""

/-- Model of `Map.set` on a JS `Map` represented as an insertion-ordered
association list: an existing key keeps its position and gets the new
value, a new key is appended at the end. -/
def mapSet (m : List (String × String)) (k v : String) : List (String × String) :=
  if m.any (fun p => p.1 == k) then
    m.map (fun p => if p.1 = k then (p.1, v) else p)
  else
    m ++ [(k, v)]

/-- Association-list lookup, used to state properties of the reviewer
map. -/
def lookupKey (k : String) : List (String × String) → Option String
  | [] => none
  | p :: t => if p.1 = k then some p.2 else lookupKey k t

/-- The review key the source deduplicates by: `r.author?.login` under a
truthiness check, so a null author or an empty login yields no key. -/
def reviewKey (r : RawReview) : Option String :=
  match r.author with
  | none => none
  | some l => if l = "" then none else some l

/-- One iteration of the review-deduplication loop body in
`normalizePR`. -/
def reviewStepFn (m : List (String × String)) (r : RawReview) : List (String × String) :=
  match reviewKey r with
  | none => m
  | some k => mapSet m k r.state

/-- The review-deduplication loop of `normalizePR`: fold the reviews in
input order into a `Map` keyed by reviewer login, latest state winning. -/
def dedupReviews (reviews : List RawReview) : List (String × String) :=
  reviews.foldl reviewStepFn []

/-- The review list `node.reviews?.nodes ?? []`. -/
def reviewNodes (node : PRNode) : List RawReview :=
  match node.reviews with
  | none => []
  | some rc => rc.nodes.getD []

/-- The optional chain `node.commits?.nodes?.[0]?.commit` from
`normalizePR`. -/
def headCommit (node : PRNode) : Option Commit :=
  match node.commits with
  | none => none
  | some conn =>
    match conn.nodes with
    | none => none
    | some l =>
      match l.head? with
      | none => none
      | some cn => cn.commit

/-- The rollup `commit?.statusCheckRollup` of the head commit. -/
def rollupOf (node : PRNode) : Option Rollup :=
  match headCommit node with
  | none => none
  | some c => c.statusCheckRollup

/-- The raw contexts list `rollup?.contexts?.nodes ?? []`. -/
def rawContexts (node : PRNode) : List RawContext :=
  match rollupOf node with
  | none => []
  | some r =>
    match r.contexts with
    | none => []
    | some cc => cc.nodes.getD []

/-- Mapping of one raw context into the unified `{name, status, url}`
shape (the `.map` callback in `normalizePR`). -/
def normalizeContext : RawContext → Check
  | .checkRun name status conclusion detailsUrl =>
    { name := name,
      status :=
        if status = "COMPLETED" then
          (if conclusion = some ("SUCCESS") then "success" else "failure")
        else "pending",
      url := detailsUrl }
  | .statusContext context state targetUrl =>
    { name := context,
      status :=
        if state = "SUCCESS" then "success"
        else if state = "FAILURE" ∨ state = "ERROR" then "failure"
        else "pending",
      url := targetUrl }

/-- Model of `normalizePR` from `github.js`: flatten one GraphQL PR node
into a PR record. -/
def normalizePR (node : PRNode) : PR :=
  let checks := (rawContexts node).map normalizeContext
  let reviewers := dedupReviews (reviewNodes node)
  let ciStatus :=
    match rollupOf node with
    | none => "none"
    | some r =>
      if r.state = "SUCCESS" then "success"
      else if r.state = "FAILURE" ∨ r.state = "ERROR" then "failure"
      else "pending"
  { number := node.number, title := node.title, url := node.url,
    isDraft := node.isDraft, updatedAt := node.updatedAt,
    repo := node.repoOwner ++ "/" ++ node.repoName,
    repoName := node.repoName,
    reviewDecision := node.reviewDecision,
    reviewers := reviewers, ciStatus := ciStatus, checks := checks }

/-- The four bucket lists built by `categorizePRs`. -/
structure Categories where
  approved : List PR
  changesRequested : List PR
  reviewRequired : List PR
  draft : List PR
  deriving DecidableEq

/-- The empty bucket set `categorizePRs` starts from. -/
def emptyCategories : Categories :=
  { approved := [], changesRequested := [], reviewRequired := [], draft := [] }

/-- The loop body of `categorizePRs`: push one PR onto the bucket chosen
by the if/else chain. -/
def categorizeStep (cats : Categories) (pr : PR) : Categories :=
  if pr.isDraft then { cats with draft := cats.draft ++ [pr] }
  else if pr.reviewDecision = some ("APPROVED") then
    { cats with approved := cats.approved ++ [pr] }
  else if pr.reviewDecision = some ("CHANGES_REQUESTED") then
    { cats with changesRequested := cats.changesRequested ++ [pr] }
  else { cats with reviewRequired := cats.reviewRequired ++ [pr] }

/-- Model of `categorizePRs` from `github.js`. -/
def categorizePRs (prs : List PR) : Categories :=
  prs.foldl categorizeStep emptyCategories

/-- The four bucket names. -/
inductive Bucket where
  | approved
  | changesRequested
  | reviewRequired
  | draft
  deriving DecidableEq

/-- Spec-side classification function, following the wording of the
classification priority in the spec: draft first, then APPROVED, then
CHANGES_REQUESTED, everything else review required. Being a total
function into `Bucket`, it assigns exactly one bucket to every record;
used to state C1 against `categorizePRs`. -/
def specBucketOf (pr : PR) : Bucket :=
  if pr.isDraft then .draft
  else if pr.reviewDecision = some ("APPROVED") then .approved
  else if pr.reviewDecision = some ("CHANGES_REQUESTED") then .changesRequested
  else .reviewRequired

/-- The fixed GraphQL endpoint of `github.js`. -/
def GRAPHQL_URL : String := "https://api.github.com/graphql"

/-- The fixed notifications endpoint of `github.js`. -/
def NOTIFICATIONS_URL : String := "https://api.github.com/notifications"

/-- Errors raised by the client. The source has exactly two JS `Error`
construction sites — the generic non-2xx throw in `_request` and the
GraphQL-errors throw in `fetchPullRequests` — plus the `TypeError`
JavaScript raises in `fetchPullRequests` if `_request` returned `null`
(a 304) and `data.errors` is then read off `null`. -/
inductive CodeError where
  | apiError (status : Nat) (text : String)
  | graphqlError (msg : String)
  | typeError
  deriving DecidableEq

/-- The `message` carried by the corresponding JS error (the non-2xx
throw truncates the body at construction, so `text` is already the
truncated slice here). -/
def CodeError.message : CodeError → String
  | .apiError status text => "GitHub API " ++ toString status ++ ": " ++ text
  | .graphqlError msg => "GraphQL error: " ++ msg
  | .typeError => "data is null"

/-- Constructor tag of a raised error: two errors are of the same kind
exactly when a JS caller catching them sees the same error class and
construction site. -/
def CodeError.kind : CodeError → Nat
  | .apiError _ _ => 0
  | .graphqlError _ => 1
  | .typeError => 2

/-- The per-instance state of `GitHubClient`: the cached `Last-Modified`
value used for conditional notification polling
(`this._lastNotificationPoll`, initially `null`). -/
structure ClientState where
  lastNotificationPoll : Option String
  deriving DecidableEq

/-- HTTP method of a request (`_request` defaults to GET; the GraphQL
query is sent as POST). -/
inductive Method where
  | GET
  | POST
  deriving DecidableEq

/-- One delivered HTTP response, the environment a `_request` call runs
against: status code, the nullable `Last-Modified` response header, the
decoded body text used for error reporting, and the parsed JSON body
(only read on a 2xx status). -/
structure HttpResp (α : Type) where
  status : Nat
  lastModified : Option String
  errorText : String
  body : α
  deriving DecidableEq

/-- Result of one `_request` call: the parsed body (`none` standing for
the `null` returned on 304) or a raised error, the client state after the
call, and the `If-Modified-Since` value the request carried (for stating
the conditional-fetch behaviour). -/
structure RequestOut (α : Type) where
  result : Except CodeError (Option α)
  state : ClientState
  sentIfModifiedSince : Option String

/-- Model of the JS `url.startsWith(prefixUrl)` test, as a structural
check on the character data. -/
def strStartsWith (s p : String) : Bool := p.data.isPrefixOf s.data

/-- Model of `GitHubClient._request` from `github.js`: attach
`If-Modified-Since` on notification GETs when a prior poll value is
truthy, return `null` on 304, throw on any other non-2xx status, record a
truthy `Last-Modified` header for notification URLs, and return the
body. -/
def request (method : Method) (url : String) (st : ClientState)
    (resp : HttpResp α) : RequestOut α :=
  let sent :=
    if method = Method.GET ∧ strStartsWith url NOTIFICATIONS_URL ∧
        jsTruthy st.lastNotificationPoll then
      st.lastNotificationPoll
    else none
  if resp.status = 304 then
    { result := .ok none, state := st, sentIfModifiedSince := sent }
  else if resp.status < 200 ∨ 300 ≤ resp.status then
    { result := .error (.apiError resp.status (resp.errorText.take 200)),
      state := st, sentIfModifiedSince := sent }
  else
    let st' :=
      if strStartsWith url NOTIFICATIONS_URL ∧ jsTruthy resp.lastModified then
        { lastNotificationPoll := resp.lastModified }
      else st
    { result := .ok (some resp.body), state := st', sentIfModifiedSince := sent }

/-- The parsed GraphQL response body. `errors` models the `errors` array
with each entry collapsed to its `message` field (an absent array is
`[]`, matching the falsy `data.errors?.length` check); `nodes` collapses
the fixed optional chain `data.data?.viewer?.pullRequests?.nodes`, with
`none` when any link is null or absent. -/
structure GraphQLBody where
  errors : List String
  nodes : Option (List PRNode)
  deriving DecidableEq

/-- Result of one `fetchPullRequests` call. -/
structure FetchPRsOut where
  result : Except CodeError (Categories × List PR)
  state : ClientState
  sentIfModifiedSince : Option String

/-- Model of `GitHubClient.fetchPullRequests` from `github.js`. -/
def fetchPullRequests (st : ClientState) (resp : HttpResp GraphQLBody) :
    FetchPRsOut :=
  let out := request Method.POST GRAPHQL_URL st resp
  match out.result with
  | .error e =>
    { result := .error e, state := out.state,
      sentIfModifiedSince := out.sentIfModifiedSince }
  | .ok none =>
    { result := .error .typeError, state := out.state,
      sentIfModifiedSince := out.sentIfModifiedSince }
  | .ok (some data) =>
    match data.errors with
    | m :: _ =>
      { result := .error (.graphqlError m), state := out.state,
        sentIfModifiedSince := out.sentIfModifiedSince }
    | [] =>
      let allPRs := (data.nodes.getD []).map normalizePR
      { result := .ok (categorizePRs allPRs, allPRs), state := out.state,
        sentIfModifiedSince := out.sentIfModifiedSince }

/-- The outcome of `fetchPullRequests` as a function of the response
alone; the lemma `fetchPullRequests_eq` below shows a call equals this
outcome with the client state passed through untouched. -/
def prOutcome (resp : HttpResp GraphQLBody) :
    Except CodeError (Categories × List PR) :=
  if resp.status = 304 then .error .typeError
  else if resp.status < 200 ∨ 300 ≤ resp.status then
    .error (.apiError resp.status (resp.errorText.take 200))
  else
    match resp.body.errors with
    | m :: _ => .error (.graphqlError m)
    | [] =>
      let allPRs := (resp.body.nodes.getD []).map normalizePR
      .ok (categorizePRs allPRs, allPRs)

/-- One unread notification, carrying the only field the source reads,
its `reason`. -/
structure Notification where
  reason : String
  deriving DecidableEq

/-- The sentinel `fetchNotifications` returns on a 304 (`-1` in the
source), distinct from every count. -/
def UNCHANGED : Int := -1

/-- Result of one `fetchNotifications` call. -/
structure FetchNotifsOut where
  result : Except CodeError Int
  state : ClientState
  sentIfModifiedSince : Option String

/-- Model of `GitHubClient.fetchNotifications` from `github.js`. -/
def fetchNotifications (st : ClientState) (resp : HttpResp (List Notification))
    (filterReasons : List String) : FetchNotifsOut :=
  let out := request Method.GET NOTIFICATIONS_URL st resp
  match out.result with
  | .error e =>
    { result := .error e, state := out.state,
      sentIfModifiedSince := out.sentIfModifiedSince }
  | .ok none =>
    { result := .ok UNCHANGED, state := out.state,
      sentIfModifiedSince := out.sentIfModifiedSince }
  | .ok (some data) =>
    let notifications :=
      if filterReasons.isEmpty then data
      else data.filter (fun n => filterReasons.contains n.reason)
    { result := .ok (notifications.length : Int), state := out.state,
      sentIfModifiedSince := out.sentIfModifiedSince }

/-- The dropdown state as driven by the menu-building calls reachable from
`_refresh` in `extension.js`: the initial loading menu, a single-item
message menu (`_buildMenuError msg`), or the categorized PR menu
(`_buildMenu cats`, executed when the menu is not open). -/
inductive View where
  | loading
  | message (msg : String)
  | menu (cats : Categories)
  deriving DecidableEq

/-- Model of `_updateBadge`: the text shown on the badge for a count, or
`none` when the badge is hidden (count not positive). -/
def updateBadge (count : Int) : Option String :=
  if 0 < count then some (if 99 < count then "99+" else toString count)
  else none

/-- The message shown when reading the token from the keyring throws. -/
def tokenReadFailMsg : String := "Failed to read token from keyring"

/-- The message shown when no token is configured (the "unconfigured"
state). -/
def noTokenMsg : String := "No token configured — open Preferences"

/-- The message shown when the first-ever PR fetch fails:
`Error: ${e.message.slice(0, 80)}`. -/
def prErrorMsg (e : CodeError) : String := "Error: " ++ (e.message.take 80)

/-- The per-button state of `GitHubPRButton` that `_refresh` reads and
writes: the last-good bucket set (`this._lastCategories`, initially
null), the last notification count, the dropdown contents, and the badge
display. -/
structure UIState where
  lastCategories : Option Categories
  lastNotificationCount : Int
  view : View
  badge : Option String
  deriving DecidableEq

/-- Outcome of the token lookup in the secret store: the lookup can
throw, or return a nullable string. -/
inductive TokenResult where
  | lookupFailed (msg : String)
  | ok (token : Option String)
  deriving DecidableEq

/-- One network call performed during a refresh, with the conditional
header it carried. -/
structure NetCall where
  url : String
  ifModifiedSince : Option String
  deriving DecidableEq

/-- The environment one `_refresh` run executes against: the token-lookup
outcome, whether the dropdown is open (`_buildMenu` skips its rebuild
then), the HTTP responses the two requests would receive if issued, and
the configured notification reason filters. -/
structure RefreshInput where
  tok : TokenResult
  menuOpen : Bool
  prResp : HttpResp GraphQLBody
  ntResp : HttpResp (List Notification)
  filters : List String

/-- Result of one `_refresh` run: the UI state, the client state, and the
network calls performed. -/
structure RefreshOut where
  ui : UIState
  cst : ClientState
  calls : List NetCall

/-- The PR try-block of `_refresh`: on success replace the cached bucket
set and rebuild the dropdown when it is closed; on failure show an error
only when no previous bucket set exists, keeping the current view
otherwise. -/
def refreshPRPhase (ui : UIState) (res : Except CodeError (Categories × List PR))
    (menuOpen : Bool) : UIState :=
  match res with
  | .ok (cats, _) =>
    { ui with lastCategories := some cats,
              view := if menuOpen then ui.view else .menu cats }
  | .error e =>
    if ui.lastCategories = none then { ui with view := .message (prErrorMsg e) }
    else ui

/-- The notification try-block of `_refresh`: update cached count and
badge only on a non-negative result; the 304 sentinel or a raised error
leaves both untouched (errors are only logged). -/
def refreshNotifPhase (ui : UIState) (res : Except CodeError Int) : UIState :=
  match res with
  | .ok count =>
    if 0 ≤ count then
      { ui with lastNotificationCount := count, badge := updateBadge count }
    else ui
  | .error _ => ui

/-- Model of `_refresh` from `extension.js` as a state transformer over
the button state and the client state. A failed token read shows the
keyring message; a null or empty token shows the unconfigured message,
hides the badge and issues no requests; otherwise the PR fetch
(`refreshPRPhase` applied to its outcome) runs first and the notification
fetch (`refreshNotifPhase`) second, against the client state the PR fetch
left behind. -/
def refreshStep (ui : UIState) (cst : ClientState) (inp : RefreshInput) :
    RefreshOut :=
  match inp.tok with
  | .lookupFailed _ =>
    { ui := { ui with view := .message tokenReadFailMsg }, cst := cst, calls := [] }
  | .ok t =>
    if jsTruthy t = false then
      { ui := { ui with view := .message noTokenMsg, badge := updateBadge 0 },
        cst := cst, calls := [] }
    else
      let prOut := fetchPullRequests cst inp.prResp
      let ui1 := refreshPRPhase ui prOut.result inp.menuOpen
      let ntOut := fetchNotifications prOut.state inp.ntResp inp.filters
      let ui2 := refreshNotifPhase ui1 ntOut.result
      { ui := ui2, cst := ntOut.state,
        calls := [{ url := GRAPHQL_URL, ifModifiedSince := prOut.sentIfModifiedSince },
                  { url := NOTIFICATIONS_URL, ifModifiedSince := ntOut.sentIfModifiedSince }] }

/-- A sequence of refresh cycles, threading the button state and the
client state, both of which live on the panel button and its single
client instance across cycles. -/
def runRefresh (ui : UIState) (cst : ClientState) :
    List RefreshInput → UIState × ClientState
  | [] => (ui, cst)
  | inp :: rest =>
    let out := refreshStep ui cst inp
    runRefresh out.ui out.cst rest

/-- Spec-side observer: the state of the review appearing last in input
order for a given reviewer identity, or `none` when the identity never
reviewed. -/
def lastReviewState (reviews : List RawReview) (k : String) : Option String :=
  (reviews.reverse.find? (fun r => r.author == some k)).map (fun r => r.state)

/-- A concrete PR node with no commits data, used as a witness input. -/
def exNodeNoCommits : PRNode :=
  { number := 1, title := "t", url := "u", isDraft := false, updatedAt := "d",
    repoOwner := "o", repoName := "r", reviewDecision := none,
    reviews := none, commits := none }

/-- A concrete PR node carrying the three-review example of the spec. -/
def exNodeRev : PRNode :=
  { exNodeNoCommits with
    reviews := some { nodes := some [{ author := some ("A"), state := "X" },
                                     { author := some ("B"), state := "Y" },
                                     { author := some ("A"), state := "Z" }] } }

/-- A fresh client state (no cached poll value). -/
def exCst : ClientState := { lastNotificationPoll := none }

/-- A client state with a cached poll value. -/
def exCstWed : ClientState :=
  { lastNotificationPoll := some ("Wed, 01 Jan 2025 00:00:00 GMT") }

/-- The initial button state. -/
def exUI0 : UIState :=
  { lastCategories := none, lastNotificationCount := 0, view := .loading,
    badge := none }

/-- A button state that already holds a last-good bucket set. -/
def exUICats : UIState :=
  { lastCategories := some emptyCategories, lastNotificationCount := 0,
    view := .menu emptyCategories, badge := none }

/-- An empty, error-free GraphQL body. -/
def exPRBodyOk : GraphQLBody := { errors := [], nodes := none }

/-- A 401 response to the GraphQL request. -/
def exPRResp401 : HttpResp GraphQLBody :=
  { status := 401, lastModified := none, errorText := "bad", body := exPRBodyOk }

/-- A 500 response to the GraphQL request. -/
def exPRResp500 : HttpResp GraphQLBody :=
  { status := 500, lastModified := none, errorText := "bad", body := exPRBodyOk }

/-- A 200 GraphQL response whose body carries a non-empty errors array. -/
def exPRRespErrs : HttpResp GraphQLBody :=
  { status := 200, lastModified := none, errorText := "",
    body := { errors := ["boom"], nodes := none } }

/-- A successful GraphQL response with no PRs. -/
def exPRRespOk : HttpResp GraphQLBody :=
  { status := 200, lastModified := none, errorText := "", body := exPRBodyOk }

/-- A 304 response from the notifications endpoint. -/
def exNtResp304 : HttpResp (List Notification) :=
  { status := 304, lastModified := none, errorText := "", body := [] }

/-- A 200 notifications response carrying the three-notification example
of the spec and a `Last-Modified` header. -/
def exNtRespList : HttpResp (List Notification) :=
  { status := 200, lastModified := some ("Wed, 01 Jan 2025 00:00:00 GMT"),
    errorText := "",
    body := [{ reason := "mention" }, { reason := "review_requested" },
             { reason := "review_requested" }] }

/-- A refresh environment with no configured token. -/
def exInpNoToken : RefreshInput :=
  { tok := .ok none, menuOpen := false, prResp := exPRResp500,
    ntResp := exNtResp304, filters := [] }

/-- A refresh environment with a token and a failing PR fetch. -/
def exInpFail : RefreshInput :=
  { tok := .ok (some ("tok")), menuOpen := false, prResp := exPRResp500,
    ntResp := exNtResp304, filters := [] }

/-- A refresh environment with a token, a succeeding PR fetch and a 304
notification response. -/
def exInp304 : RefreshInput :=
  { tok := .ok (some ("tok")), menuOpen := false, prResp := exPRRespOk,
    ntResp := exNtResp304, filters := [] }

/-- The GraphQL URL does not start with the notifications URL, so the
conditional-fetch machinery in `_request` never engages for GraphQL
calls. -/
lemma graphql_not_notif : strStartsWith GRAPHQL_URL NOTIFICATIONS_URL = false := by
  decide

/-- The notifications URL starts with itself. -/
lemma notif_startsWith : strStartsWith NOTIFICATIONS_URL NOTIFICATIONS_URL = true := by
  decide

/-- String append acts as list append on the underlying character
data. -/
lemma string_data_append (a b : String) : (a ++ b).data = a.data ++ b.data := rfl

/-- Characterization of a POST to the GraphQL endpoint: the client state
passes through untouched and no conditional header is sent. -/
lemma request_graphql_eq {α : Type} (st : ClientState) (resp : HttpResp α) :
    request Method.POST GRAPHQL_URL st resp =
      { result :=
          if resp.status = 304 then .ok none
          else if resp.status < 200 ∨ 300 ≤ resp.status then
            .error (.apiError resp.status (resp.errorText.take 200))
          else .ok (some resp.body),
        state := st, sentIfModifiedSince := none } := by
  unfold request
  by_cases h1 : resp.status = 304 <;>
    by_cases h2 : resp.status < 200 ∨ 300 ≤ resp.status <;>
      simp [h1, h2, graphql_not_notif]

/-- Characterization of a GET to the notifications endpoint: the cached
poll value is replaced exactly by a truthy `Last-Modified` header on a
2xx response, and the conditional header sent is the truthy cached
value. -/
lemma request_notif_eq {α : Type} (st : ClientState) (resp : HttpResp α) :
    request Method.GET NOTIFICATIONS_URL st resp =
      { result :=
          if resp.status = 304 then .ok none
          else if resp.status < 200 ∨ 300 ≤ resp.status then
            .error (.apiError resp.status (resp.errorText.take 200))
          else .ok (some resp.body),
        state :=
          if ¬resp.status = 304 ∧ ¬(resp.status < 200 ∨ 300 ≤ resp.status) ∧
              jsTruthy resp.lastModified then
            { lastNotificationPoll := resp.lastModified }
          else st,
        sentIfModifiedSince :=
          if jsTruthy st.lastNotificationPoll then st.lastNotificationPoll
          else none } := by
  unfold request
  by_cases h1 : resp.status = 304 <;>
    by_cases h2 : resp.status < 200 ∨ 300 ≤ resp.status <;>
      by_cases h3 : jsTruthy resp.lastModified <;>
        simp [h1, h2, h3, notif_startsWith]

/-- A `fetchPullRequests` call never touches the client state, sends no
conditional header, and its outcome is `prOutcome` of the response. -/
lemma fetchPullRequests_eq (st : ClientState) (resp : HttpResp GraphQLBody) :
    fetchPullRequests st resp =
      { result := prOutcome resp, state := st, sentIfModifiedSince := none } := by
  unfold fetchPullRequests prOutcome
  rw [request_graphql_eq]
  by_cases h1 : resp.status = 304
  · simp [h1]
  · by_cases h2 : resp.status < 200 ∨ 300 ≤ resp.status
    · simp [h1, h2]
    · cases hb : resp.body.errors <;> simp [h1, h2, hb]

/-- Characterization of a `fetchNotifications` call as a function of the
prior client state and the response. -/
lemma fetchNotifications_eq (st : ClientState) (resp : HttpResp (List Notification))
    (filterReasons : List String) :
    fetchNotifications st resp filterReasons =
      { result :=
          if resp.status = 304 then .ok UNCHANGED
          else if resp.status < 200 ∨ 300 ≤ resp.status then
            .error (.apiError resp.status (resp.errorText.take 200))
          else
            .ok (((if filterReasons.isEmpty then resp.body
                   else resp.body.filter
                     (fun n => filterReasons.contains n.reason)).length : Int)),
        state :=
          if ¬resp.status = 304 ∧ ¬(resp.status < 200 ∨ 300 ≤ resp.status) ∧
              jsTruthy resp.lastModified then
            { lastNotificationPoll := resp.lastModified }
          else st,
        sentIfModifiedSince :=
          if jsTruthy st.lastNotificationPoll then st.lastNotificationPoll
          else none } := by
  unfold fetchNotifications
  rw [request_notif_eq]
  by_cases h1 : resp.status = 304
  · simp [h1]
  · by_cases h2 : resp.status < 200 ∨ 300 ≤ resp.status <;> simp [h1, h2]

/-- Reduction of a refresh cycle when a truthy token is present: the PR
fetch outcome is `prOutcome`, the notification fetch runs against the
unchanged client state, and both network calls are issued. -/
lemma refreshStep_token_eq (ui : UIState) (cst : ClientState) (inp : RefreshInput)
    (t : String) (ht : inp.tok = TokenResult.ok (some t)) (htt : t ≠ "") :
    refreshStep ui cst inp =
      { ui := refreshNotifPhase
                (refreshPRPhase ui (prOutcome inp.prResp) inp.menuOpen)
                (fetchNotifications cst inp.ntResp inp.filters).result,
        cst := (fetchNotifications cst inp.ntResp inp.filters).state,
        calls := [{ url := GRAPHQL_URL, ifModifiedSince := none },
                  { url := NOTIFICATIONS_URL,
                    ifModifiedSince :=
                      (fetchNotifications cst inp.ntResp inp.filters).sentIfModifiedSince }] } := by
  unfold refreshStep
  rw [ht, fetchPullRequests_eq]
  simp [jsTruthy, htt]

/-- The notification phase never touches the cached bucket set or the
dropdown. -/
lemma refreshNotifPhase_frame (ui : UIState) (res : Except CodeError Int) :
    (refreshNotifPhase ui res).lastCategories = ui.lastCategories ∧
    (refreshNotifPhase ui res).view = ui.view := by
  unfold refreshNotifPhase
  cases res with
  | error e => exact ⟨rfl, rfl⟩
  | ok count =>
    by_cases hc : 0 ≤ count <;> simp [hc]

/-- The PR phase never touches the badge or the cached notification
count. -/
lemma refreshPRPhase_frame (ui : UIState) (res : Except CodeError (Categories × List PR))
    (menuOpen : Bool) :
    (refreshPRPhase ui res menuOpen).badge = ui.badge ∧
    (refreshPRPhase ui res menuOpen).lastNotificationCount = ui.lastNotificationCount := by
  unfold refreshPRPhase
  cases res with
  | ok r => exact ⟨rfl, rfl⟩
  | error e =>
    by_cases hc : ui.lastCategories = none <;> simp [hc]

/-- The categorize loop distributes over its accumulator as
bucket-filtered appends. -/
lemma categorize_foldl (prs : List PR) (acc : Categories) :
    prs.foldl categorizeStep acc =
      { approved := acc.approved ++
          prs.filter (fun pr => specBucketOf pr = Bucket.approved),
        changesRequested := acc.changesRequested ++
          prs.filter (fun pr => specBucketOf pr = Bucket.changesRequested),
        reviewRequired := acc.reviewRequired ++
          prs.filter (fun pr => specBucketOf pr = Bucket.reviewRequired),
        draft := acc.draft ++
          prs.filter (fun pr => specBucketOf pr = Bucket.draft) } := by
  induction prs generalizing acc with
  | nil => simp
  | cons pr rest ih =>
    rw [List.foldl_cons, ih]
    by_cases h1 : pr.isDraft
    · simp [categorizeStep, specBucketOf, h1, List.filter_cons]
    · by_cases h2 : pr.reviewDecision = some ("APPROVED")
      · simp [categorizeStep, specBucketOf, h1, h2, List.filter_cons]
      · by_cases h3 : pr.reviewDecision = some ("CHANGES_REQUESTED")
        · simp [categorizeStep, specBucketOf, h1, h2, h3, List.filter_cons]
        · simp [categorizeStep, specBucketOf, h1, h2, h3, List.filter_cons]

/-- Claim C1: `categorizePRs` places every normalized record in exactly
one of the four buckets — the one picked by the strict-priority total
function `specBucketOf` (draft overrides review state, then APPROVED,
then CHANGES_REQUESTED, anything else lands in review required) — and
each bucket equals the input sequence filtered by that bucket choice, so
records keep their relative input order within each bucket. -/
theorem categorizePRs_priority_partition (prs : List PR) :
    categorizePRs prs =
      { approved := prs.filter (fun pr => specBucketOf pr = Bucket.approved),
        changesRequested :=
          prs.filter (fun pr => specBucketOf pr = Bucket.changesRequested),
        reviewRequired :=
          prs.filter (fun pr => specBucketOf pr = Bucket.reviewRequired),
        draft := prs.filter (fun pr => specBucketOf pr = Bucket.draft) } := by
  unfold categorizePRs
  rw [categorize_foldl]
  simp [emptyCategories]

/-- The dedup loop body ignores a review without a truthy author
login. -/
lemma reviewStepFn_no_key (m : List (String × String)) (r : RawReview)
    (h : reviewKey r = none) : reviewStepFn m r = m := by
  unfold reviewStepFn
  rw [h]

/-- Removing the author-less reviews from the input does not change the
dedup loop result, whatever the accumulator. -/
lemma dedup_filter_aux (reviews : List RawReview) (acc : List (String × String)) :
    (reviews.filter (fun r => r.author.isSome)).foldl reviewStepFn acc =
      reviews.foldl reviewStepFn acc := by
  induction reviews generalizing acc with
  | nil => rfl
  | cons r rest ih =>
    cases ha : r.author with
    | none =>
      have hk : reviewKey r = none := by simp [reviewKey, ha]
      have hf : (r :: rest).filter (fun r => r.author.isSome) =
          rest.filter (fun r => r.author.isSome) := by
        simp [List.filter_cons, ha]
      rw [hf, List.foldl_cons, reviewStepFn_no_key _ _ hk, ih]
    | some a =>
      have hf : (r :: rest).filter (fun r => r.author.isSome) =
          r :: rest.filter (fun r => r.author.isSome) := by
        simp [List.filter_cons, ha]
      rw [hf, List.foldl_cons, List.foldl_cons, ih]

/-- Claim C10: during review deduplication `normalizePR` skips every
review whose author identity is absent or null — removing all such
reviews from the input changes nothing, so an author-less review
contributes no reviewer entry and never overwrites the state of an
already-recorded reviewer. -/
theorem normalizePR_skips_authorless_reviews (node : PRNode) :
    (normalizePR node).reviewers =
      dedupReviews ((reviewNodes node).filter (fun r => r.author.isSome)) := by
  show dedupReviews (reviewNodes node) = _
  unfold dedupReviews
  rw [dedup_filter_aux]

/-- Unfolding of `mapSet` on a cons cell. -/
lemma mapSet_cons (p : String × String) (t : List (String × String)) (k v : String) :
    mapSet (p :: t) k v =
      if p.1 = k then (p.1, v) :: t.map (fun q => if q.1 = k then (q.1, v) else q)
      else p :: mapSet t k v := by
  unfold mapSet
  by_cases hp : p.1 = k
  · simp [hp]
  · by_cases ht : t.any (fun q => q.1 == k) <;> simp [hp, ht, List.any_cons]

/-- Updating the value at a different key does not change a lookup. -/
lemma lookupKey_map_ne (t : List (String × String)) (k k' v : String) (h : k' ≠ k) :
    lookupKey k (t.map (fun q => if q.1 = k' then (q.1, v) else q)) = lookupKey k t := by
  induction t with
  | nil => rfl
  | cons q t ih =>
    by_cases hq : q.1 = k'
    · by_cases hqk : q.1 = k
      · exact absurd (hq.symm.trans hqk) h
      · simp [lookupKey, hq, hqk, h, ih]
    · simp [lookupKey, hq, ih]

/-- A `mapSet` makes its key look up the new value. -/
lemma lookupKey_mapSet_self (m : List (String × String)) (k v : String) :
    lookupKey k (mapSet m k v) = some v := by
  induction m with
  | nil => simp [mapSet, lookupKey]
  | cons p t ih =>
    rw [mapSet_cons]
    by_cases hp : p.1 = k
    · simp [lookupKey, hp]
    · simp [lookupKey, hp, ih]

/-- A `mapSet` at a different key leaves a lookup unchanged. -/
lemma lookupKey_mapSet_ne (m : List (String × String)) (k k' v : String)
    (h : k' ≠ k) : lookupKey k (mapSet m k' v) = lookupKey k m := by
  induction m with
  | nil => simp [mapSet, lookupKey, h]
  | cons p t ih =>
    rw [mapSet_cons]
    by_cases hp : p.1 = k'
    · have hpk : ¬ p.1 = k := fun hh => h (hp.symm.trans hh)
      simp [lookupKey, hp, hpk, h, lookupKey_map_ne t k k' v h]
    · simp [lookupKey, hp, ih]

/-- Splitting of the last-review observer on a cons cell: the tail is
consulted first (it is later in input order), the head only as a
fallback. -/
lemma lastReviewState_cons (r : RawReview) (rest : List RawReview) (k : String) :
    lastReviewState (r :: rest) k =
      (match lastReviewState rest k with
       | some s => some s
       | none => if r.author == some k then some r.state else none) := by
  unfold lastReviewState
  rw [List.reverse_cons, List.find?_append]
  cases hf : rest.reverse.find? (fun r => r.author == some k) <;>
    by_cases hr : r.author == some k <;>
      simp [hf, hr, List.find?]

/-- Lookup into the dedup loop result: the last review of a nonempty
identity wins, falling back to the accumulator. -/
lemma dedup_lookup_aux (k : String) (hk : k ≠ "") (reviews : List RawReview)
    (acc : List (String × String)) :
    lookupKey k (reviews.foldl reviewStepFn acc) =
      (match lastReviewState reviews k with
       | some s => some s
       | none => lookupKey k acc) := by
  induction reviews generalizing acc with
  | nil => simp [lastReviewState]
  | cons r rest ih =>
    rw [List.foldl_cons, ih, lastReviewState_cons]
    cases hl : lastReviewState rest k with
    | some s => rfl
    | none =>
      simp only
      by_cases hr : r.author = some k
      · have hkey : reviewKey r = some k := by simp [reviewKey, hr, hk]
        simp [reviewStepFn, hkey, lookupKey_mapSet_self, hr]
      · have hne : (r.author == some k) = false := by simp [hr]
        rw [hne]
        cases hau : r.author with
        | none => simp [reviewStepFn, reviewKey, hau]
        | some a =>
          have hak : a ≠ k := fun hh => hr (by rw [hau, hh])
          by_cases ha0 : a = ""
          · simp [reviewStepFn, reviewKey, hau, ha0]
          · simp [reviewStepFn, reviewKey, hau, ha0,
                  lookupKey_mapSet_ne _ _ _ _ hak]

/-- The keys of a `mapSet`: unchanged when the key is present, appended
otherwise. -/
lemma mapSet_keys (m : List (String × String)) (k v : String) :
    (mapSet m k v).map Prod.fst =
      if m.any (fun p => p.1 == k) then m.map Prod.fst
      else m.map Prod.fst ++ [k] := by
  unfold mapSet
  split
  · rw [List.map_map]
    refine List.map_congr_left ?_
    intro p _
    by_cases hp : p.1 = k <;> simp [hp]
  · simp

/-- The dedup loop keeps the reviewer-map keys pairwise distinct. -/
lemma dedup_keys_nodup_aux (reviews : List RawReview)
    (acc : List (String × String)) (h : (acc.map Prod.fst).Nodup) :
    ((reviews.foldl reviewStepFn acc).map Prod.fst).Nodup := by
  induction reviews generalizing acc with
  | nil => exact h
  | cons r rest ih =>
    rw [List.foldl_cons]
    apply ih
    unfold reviewStepFn
    cases reviewKey r with
    | none => exact h
    | some k =>
      rw [mapSet_keys]
      split
      · exact h
      · next hany =>
        rw [List.nodup_append]
        refine ⟨h, List.nodup_singleton _, ?_⟩
        intro a ha hak
        rw [List.mem_singleton] at hak
        subst hak
        rw [List.mem_map] at ha
        obtain ⟨p, hp, hpk⟩ := ha
        exact hany (List.any_eq_true.mpr ⟨p, hp, by simp [hpk]⟩)

/-- Claim C5: `normalizePR` produces at most one reviewer entry per
distinct reviewer identity (the reviewer-map keys are pairwise distinct),
each identity looks up the state of its review appearing last in input
list order, and in particular the input `[{A,X},{B,Y},{A,Z}]`
deduplicates to the mapping `A ↦ Z`, `B ↦ Y`. -/
theorem normalizePR_review_dedup_last_wins (node : PRNode) (k : String)
    (hk : k ≠ "") :
    lookupKey k (normalizePR node).reviewers = lastReviewState (reviewNodes node) k ∧
    ((normalizePR node).reviewers.map Prod.fst).Nodup ∧
    dedupReviews [{ author := some ("A"), state := "X" },
                  { author := some ("B"), state := "Y" },
                  { author := some ("A"), state := "Z" }] =
      [("A", "Z"), ("B", "Y")] := by
  refine ⟨?_, ?_, by decide⟩
  · show lookupKey k (dedupReviews (reviewNodes node)) = _
    unfold dedupReviews
    rw [dedup_lookup_aux k hk]
    cases lastReviewState (reviewNodes node) k <;> rfl
  · show ((dedupReviews (reviewNodes node)).map Prod.fst).Nodup
    exact dedup_keys_nodup_aux _ _ (by simp)

/-- Witness for C5 at the example node: the dedup result of the
three-review example looks up `Z` for `A` and `Y` for `B`. -/
theorem normalizePR_review_dedup_last_wins_witness :
    lookupKey ("A") (normalizePR exNodeRev).reviewers = some ("Z") ∧
    lookupKey ("B") (normalizePR exNodeRev).reviewers = some ("Y") := by
  have hA := normalizePR_review_dedup_last_wins exNodeRev ("A") (by decide)
  have hB := normalizePR_review_dedup_last_wins exNodeRev ("B") (by decide)
  exact ⟨hA.1.trans (by decide), hB.1.trans (by decide)⟩

/-- Claim C4: `normalizePR` yields `ciStatus = none` exactly when the
node carries no status-check rollup for its head commit; with a rollup
present, `ciStatus` is success iff the aggregate state is SUCCESS,
failure iff it is FAILURE or ERROR, and pending otherwise; and an absent
or null commits list, rollup, or contexts list yields an empty checks
sequence (the embedding is a total function, so no exception arises on
such inputs). -/
theorem normalizePR_ciStatus_rollup (node : PRNode) :
    ((normalizePR node).ciStatus = "none" ↔ rollupOf node = none) ∧
    (∀ r, rollupOf node = some r →
      (((normalizePR node).ciStatus = "success") ↔ r.state = "SUCCESS") ∧
      (((normalizePR node).ciStatus = "failure") ↔
        (r.state = "FAILURE" ∨ r.state = "ERROR")) ∧
      (((normalizePR node).ciStatus = "pending") ↔
        (r.state ≠ "SUCCESS" ∧ r.state ≠ "FAILURE" ∧ r.state ≠ "ERROR"))) ∧
    (rollupOf node = none → (normalizePR node).checks = []) ∧
    (∀ r, rollupOf node = some r → r.contexts = none →
      (normalizePR node).checks = []) ∧
    (∀ r cc, rollupOf node = some r → r.contexts = some cc → cc.nodes = none →
      (normalizePR node).checks = []) := by
  have hci : (normalizePR node).ciStatus =
      (match rollupOf node with
       | none => "none"
       | some r =>
         if r.state = "SUCCESS" then "success"
         else if r.state = "FAILURE" ∨ r.state = "ERROR" then "failure"
         else "pending") := rfl
  have hch : (normalizePR node).checks = (rawContexts node).map normalizeContext := rfl
  refine ⟨?_, ?_, ?_, ?_, ?_⟩
  · cases hr : rollupOf node with
    | none => simp [hci, hr]
    | some r =>
      simp only [hci, hr]
      by_cases h1 : r.state = "SUCCESS"
      · simp [h1]
      · by_cases h2 : r.state = "FAILURE" ∨ r.state = "ERROR" <;> simp [h1, h2]
  · intro r hr
    simp only [hci, hr]
    by_cases h1 : r.state = "SUCCESS"
    · simp [h1]
    · by_cases h2 : r.state = "FAILURE"
      · simp [h1, h2]
      · by_cases h3 : r.state = "ERROR" <;> simp [h1, h2, h3]
  · intro hr
    simp [hch, rawContexts, hr]
  · intro r hr hc
    simp [hch, rawContexts, hr, hc]
  · intro r cc hr hc hn
    simp [hch, rawContexts, hr, hc, hn]

/-- Witness for C4 at a node without commits data: the status is the
none marker and the checks list is empty. -/
theorem normalizePR_ciStatus_rollup_witness :
    (normalizePR exNodeNoCommits).ciStatus = "none" ∧
    (normalizePR exNodeNoCommits).checks = [] := by
  have h := normalizePR_ciStatus_rollup exNodeNoCommits
  exact ⟨h.1.mpr rfl, h.2.2.1 rfl⟩

/-- Claim C6: on a 2xx notification response, `fetchNotifications`
returns the number of notifications whose `reason` is a member of the
enabled reasons, and the total number of notifications when the filter
set is empty. -/
theorem fetchNotifications_filter_count (st : ClientState)
    (resp : HttpResp (List Notification)) (filters : List String)
    (h1 : 200 ≤ resp.status) (h2 : resp.status < 300) :
    (fetchNotifications st resp filters).result =
      .ok (if filters = [] then (resp.body.length : Int)
           else ((resp.body.countP (fun n => filters.contains n.reason) : Nat) : Int)) := by
  rw [fetchNotifications_eq]
  have h304 : ¬ resp.status = 304 := by omega
  have hrange : ¬ (resp.status < 200 ∨ 300 ≤ resp.status) := by omega
  simp only [h304, hrange, if_false, if_neg, ite_false]
  by_cases hf : filters = []
  · simp [hf, h304, hrange]
  · have hfe : filters.isEmpty = false := by
      cases filters with
      | nil => exact absurd rfl hf
      | cons a l => rfl
    simp [hf, hfe, h304, hrange, List.countP_eq_length_filter]

/-- Witness for C6: the spec example — filter `review_requested` over
`[mention, review_requested, review_requested]` — returns the count 2. -/
theorem fetchNotifications_filter_count_witness :
    (fetchNotifications exCst exNtRespList [("review_requested")]).result =
      .ok (2 : Int) := by
  have h := fetchNotifications_filter_count exCst exNtRespList
    [("review_requested")] (by decide) (by decide)
  rw [h]
  rfl

/-- On a 304 notification response `fetchNotifications` answers the
sentinel and passes the client state through. -/
lemma fetchNotifications_304 (st : ClientState) (resp : HttpResp (List Notification))
    (filters : List String) (h304 : resp.status = 304) :
    (fetchNotifications st resp filters).result = .ok UNCHANGED ∧
    (fetchNotifications st resp filters).state = st := by
  rw [fetchNotifications_eq]
  simp [h304]

/-- Claim C3: a 304 from the notification endpoint makes
`fetchNotifications` return the `UNCHANGED` sentinel — negative, hence
distinct from every non-negative count it can otherwise return — leaves
the cached poll token unchanged, and the refresh cycle then leaves the
badge and the cached notification count untouched. -/
theorem notif_304_unchanged (ui : UIState) (cst : ClientState) (inp : RefreshInput)
    (t : String) (ht : inp.tok = TokenResult.ok (some t)) (htt : t ≠ "")
    (h304 : inp.ntResp.status = 304) :
    (fetchNotifications cst inp.ntResp inp.filters).result = .ok UNCHANGED ∧
    (fetchNotifications cst inp.ntResp inp.filters).state = cst ∧
    UNCHANGED < 0 ∧
    (∀ (st2 : ClientState) (resp2 : HttpResp (List Notification))
        (f2 : List String) (n : Int),
      (fetchNotifications st2 resp2 f2).result = .ok n → n = UNCHANGED ∨ 0 ≤ n) ∧
    (refreshStep ui cst inp).ui.badge = ui.badge ∧
    (refreshStep ui cst inp).ui.lastNotificationCount = ui.lastNotificationCount ∧
    (refreshStep ui cst inp).cst.lastNotificationPoll = cst.lastNotificationPoll := by
  have hfetch := fetchNotifications_304 cst inp.ntResp inp.filters h304
  have hstep := refreshStep_token_eq ui cst inp t ht htt
  refine ⟨hfetch.1, hfetch.2, by decide, ?_, ?_, ?_, ?_⟩
  · intro st2 resp2 f2 n hn
    rw [fetchNotifications_eq] at hn
    by_cases hb : resp2.status = 304
    · simp [hb] at hn
      exact Or.inl hn.symm
    · by_cases hr : resp2.status < 200 ∨ 300 ≤ resp2.status
      · simp [hb, hr] at hn
      · simp [hb, hr] at hn
        right
        rw [← hn]
        exact Int.natCast_nonneg _
  · rw [hstep, hfetch.1]
    simp only [refreshNotifPhase, UNCHANGED]
    rw [if_neg (by decide)]
    exact (refreshPRPhase_frame ui (prOutcome inp.prResp) inp.menuOpen).1
  · rw [hstep, hfetch.1]
    simp only [refreshNotifPhase, UNCHANGED]
    rw [if_neg (by decide)]
    exact (refreshPRPhase_frame ui (prOutcome inp.prResp) inp.menuOpen).2
  · rw [hstep, hfetch.2]

/-- Witness for C3 at a concrete 304 cycle. -/
theorem notif_304_unchanged_witness :
    (fetchNotifications exCst exNtResp304 []).result = .ok UNCHANGED ∧
    (refreshStep exUI0 exCst exInp304).ui.badge = exUI0.badge ∧
    (refreshStep exUI0 exCst exInp304).cst.lastNotificationPoll =
      exCst.lastNotificationPoll := by
  have h := notif_304_unchanged exUI0 exCst exInp304 ("tok") rfl (by decide) rfl
  exact ⟨h.1, h.2.2.2.2.1, h.2.2.2.2.2.2⟩

/-- The notification phase leaves the cached bucket set alone. -/
lemma refreshNotifPhase_lastCategories (ui : UIState) (res : Except CodeError Int) :
    (refreshNotifPhase ui res).lastCategories = ui.lastCategories :=
  (refreshNotifPhase_frame ui res).1

/-- The notification phase leaves the dropdown alone. -/
lemma refreshNotifPhase_view (ui : UIState) (res : Except CodeError Int) :
    (refreshNotifPhase ui res).view = ui.view :=
  (refreshNotifPhase_frame ui res).2

/-- A refresh cycle whose PR fetch fails keeps the cached bucket set, and
touches the dropdown only when no previous bucket set exists. -/
lemma refresh_fail_step (ui : UIState) (cst : ClientState) (inp : RefreshInput)
    (t : String) (e : CodeError) (ht : inp.tok = TokenResult.ok (some t))
    (htt : t ≠ "") (he : prOutcome inp.prResp = .error e) :
    (refreshStep ui cst inp).ui.lastCategories = ui.lastCategories ∧
    (ui.lastCategories ≠ none → (refreshStep ui cst inp).ui.view = ui.view) ∧
    (ui.lastCategories = none →
      (refreshStep ui cst inp).ui.view = View.message (prErrorMsg e)) := by
  have hstep := refreshStep_token_eq ui cst inp t ht htt
  refine ⟨?_, fun hc => ?_, fun hc => ?_⟩
  · rw [hstep]
    simp only [refreshNotifPhase_lastCategories, he, refreshPRPhase]
    by_cases hc : ui.lastCategories = none <;> simp [hc]
  · rw [hstep]
    simp only [refreshNotifPhase_view, he, refreshPRPhase]
    simp [hc]
  · rw [hstep]
    simp only [refreshNotifPhase_view, he, refreshPRPhase]
    simp [hc]

/-- Any number of consecutive failing refresh cycles keeps the last-good
bucket set and never changes the displayed view. -/
lemma refresh_fail_run (inps : List RefreshInput) :
    ∀ (ui : UIState) (cst : ClientState) (cats : Categories),
      ui.lastCategories = some cats →
      (∀ inp ∈ inps, (∃ t, inp.tok = TokenResult.ok (some t) ∧ t ≠ "") ∧
        (∃ e, prOutcome inp.prResp = .error e)) →
      (runRefresh ui cst inps).1.lastCategories = some cats ∧
      (runRefresh ui cst inps).1.view = ui.view := by
  induction inps with
  | nil =>
    intro ui cst cats hc _
    exact ⟨hc, rfl⟩
  | cons inp rest ih =>
    intro ui cst cats hc hall
    obtain ⟨⟨t, ht, htt⟩, ⟨e, he⟩⟩ := hall inp (List.mem_cons_self _ _)
    have hstep := refresh_fail_step ui cst inp t e ht htt he
    have hrest : ∀ i ∈ rest, (∃ t, i.tok = TokenResult.ok (some t) ∧ t ≠ "") ∧
        (∃ e, prOutcome i.prResp = .error e) :=
      fun i hi => hall i (List.mem_cons_of_mem _ hi)
    have h1 : (refreshStep ui cst inp).ui.lastCategories = some cats := by
      rw [hstep.1, hc]
    have h2 : (refreshStep ui cst inp).ui.view = ui.view :=
      hstep.2.1 (by rw [hc]; exact fun hh => Option.noConfusion hh)
    have hrec := ih (refreshStep ui cst inp).ui (refreshStep ui cst inp).cst
      cats h1 hrest
    exact ⟨hrec.1, hrec.2.trans h2⟩

/-- Claim C2: when the PR fetch fails during a refresh cycle the cached
bucket set (last-good snapshot) is left unchanged and the visible error
state is entered only when no previous bucket set exists; and after at
least one success, any number of consecutive failing cycles keeps the
bucket set at the last successful result with no error surfaced. -/
theorem refresh_failure_no_flicker (ui : UIState) (cst : ClientState) :
    (∀ (inp : RefreshInput) (t : String) (cats : Categories) (prs : List PR),
      inp.tok = TokenResult.ok (some t) → t ≠ "" →
      prOutcome inp.prResp = .ok (cats, prs) →
      (refreshStep ui cst inp).ui.lastCategories = some cats) ∧
    (∀ (inp : RefreshInput) (t : String) (e : CodeError),
      inp.tok = TokenResult.ok (some t) → t ≠ "" →
      prOutcome inp.prResp = .error e →
      (refreshStep ui cst inp).ui.lastCategories = ui.lastCategories ∧
      (ui.lastCategories ≠ none → (refreshStep ui cst inp).ui.view = ui.view) ∧
      (ui.lastCategories = none →
        (refreshStep ui cst inp).ui.view = View.message (prErrorMsg e))) ∧
    (∀ (cats : Categories), ui.lastCategories = some cats →
      ∀ (inps : List RefreshInput),
        (∀ inp ∈ inps, (∃ t, inp.tok = TokenResult.ok (some t) ∧ t ≠ "") ∧
          (∃ e, prOutcome inp.prResp = .error e)) →
        (runRefresh ui cst inps).1.lastCategories = some cats ∧
        (runRefresh ui cst inps).1.view = ui.view) := by
  refine ⟨?_, ?_, ?_⟩
  · intro inp t cats prs ht htt hok
    rw [refreshStep_token_eq ui cst inp t ht htt]
    simp only [refreshNotifPhase_lastCategories, hok, refreshPRPhase]
  · intro inp t e ht htt he
    exact refresh_fail_step ui cst inp t e ht htt he
  · intro cats hcats inps hall
    exact refresh_fail_run inps ui cst cats hcats hall

/-- Witness for C2: a populated bucket set followed by two failing
cycles keeps the bucket set and the view. -/
theorem refresh_failure_no_flicker_witness :
    (runRefresh exUICats exCst [exInpFail, exInpFail]).1.lastCategories =
      some emptyCategories ∧
    (runRefresh exUICats exCst [exInpFail, exInpFail]).1.view = exUICats.view := by
  refine (refresh_failure_no_flicker exUICats exCst).2.2 emptyCategories rfl
    [exInpFail, exInpFail] ?_
  intro inp hin
  simp only [List.mem_cons, List.not_mem_nil, or_false, or_self] at hin
  rw [hin]
  exact ⟨⟨"tok", rfl, by decide⟩, ⟨CodeError.apiError 500 ("bad"), rfl⟩⟩

/-- The unconfigured message differs from every error message the PR
fetch path can display (those all start with an Error prefix). -/
lemma noTokenMsg_ne_prErrorMsg (e : CodeError) : noTokenMsg ≠ prErrorMsg e := by
  intro h
  have hd : noTokenMsg.data = (prErrorMsg e).data := congrArg String.data h
  have h1 : noTokenMsg.data =
      'N' :: ("o token configured — open Preferences").data := rfl
  have h2 : (prErrorMsg e).data =
      ("Error: ").data ++ ((CodeError.message e).take 80).data :=
    string_data_append _ _
  have h3 : ("Error: ").data = 'E' :: ("rror: ").data := rfl
  rw [h1, h2, h3, List.cons_append] at hd
  injection hd with hc _
  exact absurd hc (by decide)

/-- Claim C8: with no access token in the secret store, a refresh cycle
shows the unconfigured message — which is not an error state: it differs
from the keyring-failure message and from every PR fetch-error message —
hides the badge (count zero), leaves the client state alone, and
performs zero network calls. -/
theorem refresh_no_token_unconfigured (ui : UIState) (cst : ClientState)
    (inp : RefreshInput) (h : inp.tok = TokenResult.ok none) :
    (refreshStep ui cst inp).ui.view = View.message noTokenMsg ∧
    (refreshStep ui cst inp).ui.badge = none ∧
    (refreshStep ui cst inp).calls = [] ∧
    (refreshStep ui cst inp).cst = cst ∧
    noTokenMsg ≠ tokenReadFailMsg ∧
    (∀ e : CodeError, noTokenMsg ≠ prErrorMsg e) := by
  have hstep : refreshStep ui cst inp =
      { ui := { ui with view := .message noTokenMsg, badge := updateBadge 0 },
        cst := cst, calls := [] } := by
    unfold refreshStep
    rw [h]
    simp [jsTruthy]
  rw [hstep]
  refine ⟨rfl, ?_, rfl, rfl, by decide, noTokenMsg_ne_prErrorMsg⟩
  show updateBadge 0 = none
  rw [updateBadge, if_neg (by decide)]

/-- Witness for C8 at a concrete token-less cycle. -/
theorem refresh_no_token_unconfigured_witness :
    (refreshStep exUI0 exCst exInpNoToken).ui.view = View.message noTokenMsg ∧
    (refreshStep exUI0 exCst exInpNoToken).ui.badge = none ∧
    (refreshStep exUI0 exCst exInpNoToken).calls = [] := by
  have h := refresh_no_token_unconfigured exUI0 exCst exInpNoToken rfl
  exact ⟨h.1, h.2.1, h.2.2.1⟩

/-- Claim C7 counterexample: the code raises the same failure kind — the
single generic non-2xx construction site of `_request` — for HTTP 401 as
for HTTP 500. There is no distinct auth error kind for 401/403, so the
claimed three-way caller-distinguishable taxonomy does not hold. -/
theorem fetchPR_no_distinct_auth_error :
    (fetchPullRequests exCst exPRResp401).result =
      .error (CodeError.apiError 401 ("bad")) ∧
    (fetchPullRequests exCst exPRResp500).result =
      .error (CodeError.apiError 500 ("bad")) ∧
    CodeError.kind (CodeError.apiError 401 ("bad")) =
      CodeError.kind (CodeError.apiError 500 ("bad")) :=
  ⟨rfl, rfl, rfl⟩

/-- Claim C7 amended: `fetchPullRequests` fails with the single generic
API error — whose message merely embeds the HTTP status code — for every
non-2xx non-304 status, 401 and 403 not being special-cased, and with
the generic GraphQL error carrying the first returned message when a 2xx
body holds a non-empty errors array; no distinct auth error kind
exists. -/
theorem fetchPR_error_shapes (st : ClientState) (resp : HttpResp GraphQLBody)
    (h304 : resp.status ≠ 304) :
    (resp.status < 200 ∨ 300 ≤ resp.status →
      (fetchPullRequests st resp).result =
        .error (CodeError.apiError resp.status (resp.errorText.take 200))) ∧
    (200 ≤ resp.status → resp.status < 300 →
      ∀ m rest, resp.body.errors = m :: rest →
        (fetchPullRequests st resp).result =
          .error (CodeError.graphqlError m)) := by
  rw [fetchPullRequests_eq]
  constructor
  · intro hr
    show prOutcome resp = _
    unfold prOutcome
    rw [if_neg h304, if_pos hr]
  · intro hlo hhi m rest herr
    show prOutcome resp = _
    unfold prOutcome
    rw [if_neg h304, if_neg (by omega), herr]

/-- Witness for the amended C7 at a 401 response and at a GraphQL-errors
response. -/
theorem fetchPR_error_shapes_witness :
    (fetchPullRequests exCst exPRResp401).result =
      .error (CodeError.apiError 401 ("bad")) ∧
    (fetchPullRequests exCst exPRRespErrs).result =
      .error (CodeError.graphqlError ("boom")) := by
  have h1 := fetchPR_error_shapes exCst exPRResp401 (by decide)
  have h2 := fetchPR_error_shapes exCst exPRRespErrs (by decide)
  exact ⟨h1.1 (by decide), h2.2 (by decide) (by decide) ("boom") [] rfl⟩

/-- Claim C9: the cached conditional-fetch token is replaced exactly by a
2xx notification response carrying a truthy Last-Modified header; it is
untouched by 304s, by failed requests, by header-less 2xx responses and
by PR (GraphQL) fetches; and it lives on the client instance: a refresh
cycle sends the currently cached token as the If-Modified-Since header
of its notification call, and `runRefresh` threads the client state a
cycle leaves behind into the next cycle. -/
theorem lastModified_token_frame (st : ClientState) :
    (∀ (resp : HttpResp (List Notification)) (filters : List String),
      (fetchNotifications st resp filters).state.lastNotificationPoll =
        (if ¬resp.status = 304 ∧ ¬(resp.status < 200 ∨ 300 ≤ resp.status) ∧
            jsTruthy resp.lastModified
         then resp.lastModified else st.lastNotificationPoll)) ∧
    (∀ (resp : HttpResp (List Notification)) (filters : List String),
      resp.status = 304 ∨ resp.status < 200 ∨ 300 ≤ resp.status ∨
        resp.lastModified = none →
      (fetchNotifications st resp filters).state = st) ∧
    (∀ (resp : HttpResp GraphQLBody), (fetchPullRequests st resp).state = st) ∧
    (∀ (ui : UIState) (inp : RefreshInput) (t : String),
      inp.tok = TokenResult.ok (some t) → t ≠ "" →
      (refreshStep ui st inp).calls =
        [{ url := GRAPHQL_URL, ifModifiedSince := none },
         { url := NOTIFICATIONS_URL,
           ifModifiedSince :=
             if jsTruthy st.lastNotificationPoll then st.lastNotificationPoll
             else none }]) ∧
    (∀ (ui : UIState) (inp : RefreshInput) (rest : List RefreshInput),
      runRefresh ui st (inp :: rest) =
        runRefresh (refreshStep ui st inp).ui (refreshStep ui st inp).cst rest) := by
  refine ⟨?_, ?_, ?_, ?_, ?_⟩
  · intro resp filters
    rw [fetchNotifications_eq]
    by_cases hcond : ¬resp.status = 304 ∧ ¬(resp.status < 200 ∨ 300 ≤ resp.status) ∧
        jsTruthy resp.lastModified
    · simp only [if_pos hcond]
    · simp only [if_neg hcond]
  · intro resp filters hr
    rw [fetchNotifications_eq]
    have hcond : ¬(¬resp.status = 304 ∧ ¬(resp.status < 200 ∨ 300 ≤ resp.status) ∧
        jsTruthy resp.lastModified = true) := by
      rcases hr with h | h | h | h
      · exact fun hc => hc.1 h
      · exact fun hc => hc.2.1 (Or.inl h)
      · exact fun hc => hc.2.1 (Or.inr h)
      · intro hc
        have hj := hc.2.2
        rw [h] at hj
        simp [jsTruthy] at hj
    simp only [if_neg hcond]
  · intro resp
    rw [fetchPullRequests_eq]
  · intro ui inp t ht htt
    rw [refreshStep_token_eq ui st inp t ht htt, fetchNotifications_eq]
  · intro ui inp rest
    rfl

/-- Witness for C9: a 2xx response with a header replaces the token, a
304 and a PR fetch leave it alone. -/
theorem lastModified_token_frame_witness :
    (fetchNotifications exCst exNtRespList []).state.lastNotificationPoll =
      some ("Wed, 01 Jan 2025 00:00:00 GMT") ∧
    (fetchNotifications exCstWed exNtResp304 []).state = exCstWed ∧
    (fetchPullRequests exCstWed exPRRespOk).state = exCstWed := by
  have h1 := (lastModified_token_frame exCst).1 exNtRespList []
  have h2 := (lastModified_token_frame exCstWed).2.1 exNtResp304 [] (Or.inl rfl)
  have h3 := (lastModified_token_frame exCstWed).2.2.1 exPRRespOk
  exact ⟨h1.trans (by rfl), h2, h3⟩
